import Mathlib

/-!
Verification development for the Kingston/Bastilon voice-cloning microservice
(`src/voice/xtts/server.py`).  The Python source is shallowly embedded below:
pure helpers become Lean functions, the process-global state (active voice,
in-memory preset cache, on-disk profile directories and files) becomes an
explicit `ServerState` record threaded through the endpoint functions, and the
external collaborators (the EnCodec codec, the Bark engine, ffmpeg) appear as
explicit parameters giving their outcome.  Floating-point sample buffers are
modelled over `ℚ` (the claims about them are stated "within floating
tolerance", so exact arithmetic is the right abstraction).
-/

namespace Bastilon

/-- Model of Python `c.isalnum() or c in "-_"` from `get_voice_dir`
(`server.py:64`).  `isalnum` is modelled on the ASCII range via
`Char.isAlphanum`; every input appearing in the claims is ASCII. -/
def isAllowedChar (c : Char) : Bool :=
  c.isAlphanum || c = '-' || c = '_'

/-- Sanitized directory name of a voice profile:
`safe = "".join(c for c in name if c.isalnum() or c in "-_")` (`server.py:64`). -/
def sanitize (name : String) : String :=
  String.mk (name.data.filter isAllowedChar)

theorem sanitize_data (name : String) :
    (sanitize name).data = name.data.filter isAllowedChar := rfl

theorem sanitize_eq_self_of_allowed (name : String)
    (h : ∀ c ∈ name.data, isAllowedChar c = true) : sanitize name = name := by
  cases name with
  | mk data =>
    show String.mk (data.filter isAllowedChar) = String.mk data
    rw [List.filter_eq_self.mpr h]

/-- C4: Profile-name sanitization is idempotent and its output contains only
characters from the allowed set (alphanumeric, '-', '_'). -/
theorem sanitize_idempotent_and_allowed (x : String) :
    sanitize (sanitize x) = sanitize x ∧
    ∀ c ∈ (sanitize x).data, isAllowedChar c = true := by
  constructor
  · apply sanitize_eq_self_of_allowed
    intro c hc
    exact (List.mem_filter.mp (by simpa [sanitize_data] using hc)).2
  · intro c hc
    exact (List.mem_filter.mp (by simpa [sanitize_data] using hc)).2

/-- C4 witness: the idempotence and allowed-output facts evaluated at a
concrete input. -/
theorem sanitize_idempotent_and_allowed_witness :
    sanitize (sanitize "a!b") = sanitize "a!b" ∧ isAllowedChar 'a' = true :=
  ⟨(sanitize_idempotent_and_allowed "a!b").1,
   (sanitize_idempotent_and_allowed "a!b").2 'a' (by decide)⟩

/-- C3 counterexample: sanitization is NOT injective on requested names —
the two distinct names "a!" and "a?" sanitize to the same stored name. -/
theorem sanitize_collision_cex :
    ("a!" : String) ≠ "a?" ∧ sanitize "a!" = sanitize "a?" := by
  constructor
  · decide
  · rfl

/-- C3 (amended): sanitization is injective only on names that already consist
of allowed characters (there it is the identity); two distinct such names never
map to the same stored name.  In general distinct requested names can collide. -/
theorem sanitize_injective_on_allowed (n1 n2 : String)
    (h1 : ∀ c ∈ n1.data, isAllowedChar c = true)
    (h2 : ∀ c ∈ n2.data, isAllowedChar c = true)
    (hne : n1 ≠ n2) : sanitize n1 ≠ sanitize n2 := by
  rw [sanitize_eq_self_of_allowed n1 h1, sanitize_eq_self_of_allowed n2 h2]
  exact hne

/-- C3 witness: injectivity on allowed-only names at a concrete pair. -/
theorem sanitize_injective_on_allowed_witness :
    sanitize "a-1" ≠ sanitize "b_2" :=
  sanitize_injective_on_allowed "a-1" "b_2" (by decide) (by decide) (by decide)

/-! ### Waveform post-processing (`tts`, `server.py:299-305`) -/

/-- Peak amplitude `np.abs(audio).max()` of a sample buffer, with `0` for the empty buffer
(the generated buffer is never empty; absolute values are nonnegative, so the
fold base `0` agrees with numpy's max on every nonempty buffer). -/
def maxAbs (l : List ℚ) : ℚ :=
  (l.map (fun x => |x|)).foldr max 0

theorem maxAbs_nil : maxAbs [] = 0 := rfl

theorem maxAbs_cons (x : ℚ) (l : List ℚ) :
    maxAbs (x :: l) = max |x| (maxAbs l) := rfl

theorem maxAbs_nonneg (l : List ℚ) : 0 ≤ maxAbs l := by
  induction l with
  | nil => exact le_refl 0
  | cons x xs ih =>
    rw [maxAbs_cons]
    exact le_trans ih (le_max_right _ _)

theorem abs_le_maxAbs (l : List ℚ) (x : ℚ) (h : x ∈ l) : |x| ≤ maxAbs l := by
  induction l with
  | nil => cases h
  | cons y ys ih =>
    rw [maxAbs_cons]
    rcases List.mem_cons.mp h with h | h
    · subst h; exact le_max_left _ _
    · exact le_trans (ih h) (le_max_right _ _)

theorem maxAbs_le (l : List ℚ) (b : ℚ) (hb : 0 ≤ b)
    (h : ∀ x ∈ l, |x| ≤ b) : maxAbs l ≤ b := by
  induction l with
  | nil => exact hb
  | cons y ys ih =>
    rw [maxAbs_cons]
    exact max_le (h y (List.mem_cons_self y ys))
      (ih fun x hx => h x (List.mem_cons_of_mem y hx))

theorem maxAbs_map_mul (l : List ℚ) (k : ℚ) (hk : 0 ≤ k) :
    maxAbs (l.map (fun x => x * k)) = maxAbs l * k := by
  induction l with
  | nil => simp [maxAbs_nil]
  | cons y ys ih =>
    rw [List.map_cons, maxAbs_cons, maxAbs_cons, ih, abs_mul,
      abs_of_nonneg hk]
    rcases le_total |y| (maxAbs ys) with h | h
    · rw [max_eq_right h, max_eq_right (mul_le_mul_of_nonneg_right h hk)]
    · rw [max_eq_left h, max_eq_left (mul_le_mul_of_nonneg_right h hk)]

/-- Peak normalization
`if np.abs(audio).max() > 0: audio = audio / np.abs(audio).max() * 0.95`
(`server.py:304-305`).  The float32 cast is modelled away: samples are exact
rationals and the claim is stated within floating tolerance. -/
def normalizeAudio (audio : List ℚ) : List ℚ :=
  if 0 < maxAbs audio then
    audio.map (fun x => x / maxAbs audio * (19/20))
  else audio

/-- C2: a generated waveform that is not all-zero is peak-normalized so
max(abs(output)) equals 0.95 exactly (in exact arithmetic); an all-zero
waveform is left unchanged, so no division by zero occurs. -/
theorem normalizeAudio_peak (audio : List ℚ) :
    ((∃ x ∈ audio, x ≠ 0) → maxAbs (normalizeAudio audio) = 19/20) ∧
    ((∀ x ∈ audio, x = 0) → normalizeAudio audio = audio) := by
  constructor
  · rintro ⟨x, hx, hxne⟩
    have hm : 0 < maxAbs audio :=
      lt_of_lt_of_le (abs_pos.mpr hxne) (abs_le_maxAbs audio x hx)
    have hmne : maxAbs audio ≠ 0 := ne_of_gt hm
    rw [normalizeAudio, if_pos hm]
    have hfun : audio.map (fun x => x / maxAbs audio * (19/20)) =
        audio.map (fun x => x * ((19/20) / maxAbs audio)) := by
      congr 1
      funext y
      rw [div_mul_eq_mul_div, mul_div_assoc]
    rw [hfun, maxAbs_map_mul audio _ (div_nonneg (by norm_num) (le_of_lt hm)),
      mul_comm, div_mul_cancel₀ _ hmne]
  · intro hall
    have hle : maxAbs audio ≤ 0 :=
      maxAbs_le audio 0 (le_refl 0) fun x hx => by
        rw [hall x hx]; simp
    rw [normalizeAudio, if_neg (not_lt.mpr hle)]

/-- C2 witness: normalization evaluated on a concrete non-silent buffer and a
concrete silent buffer. -/
theorem normalizeAudio_peak_witness :
    maxAbs (normalizeAudio [(1:ℚ)/2, -1]) = 19/20 ∧
    normalizeAudio [(0:ℚ), 0] = [0, 0] :=
  ⟨(normalizeAudio_peak [(1:ℚ)/2, -1]).1 ⟨-1, by simp, by norm_num⟩,
   (normalizeAudio_peak [(0:ℚ), 0]).2 (by intro x hx; simpa using hx)⟩

/-! ### Reference-audio truncation (`create_voice_preset`, `server.py:154-157`) -/

/-- Truncation to the 10-second cap: `max_samples = encodec_model.sample_rate * 10;
if waveform.shape[-1] > max_samples: waveform = waveform[..., :max_samples]`
(`server.py:155-157`). -/
def truncateWaveform (w : List ℚ) (sampleRate : ℕ) : List ℚ :=
  if w.length > sampleRate * 10 then w.take (sampleRate * 10) else w

/-- C5: an input waveform longer than 10 seconds at the codec's native rate is
silently truncated to exactly 10 seconds of samples, so any monotone encoder
frame count on the truncated input never exceeds that of a 10-second clip. -/
theorem truncateWaveform_cap (w : List ℚ) (sr : ℕ) (h : w.length > sr * 10) :
    (truncateWaveform w sr).length = sr * 10 ∧
    ∀ frameCount : ℕ → ℕ, Monotone frameCount →
      frameCount (truncateWaveform w sr).length ≤ frameCount (sr * 10) := by
  have hlen : (truncateWaveform w sr).length = sr * 10 := by
    rw [truncateWaveform, if_pos h, List.length_take]
    exact min_eq_left (le_of_lt h)
  exact ⟨hlen, fun f _ => by rw [hlen]⟩

/-- C5 witness: an 11-sample waveform at a 1 Hz codec rate is cut to exactly
10 samples. -/
theorem truncateWaveform_cap_witness :
    (truncateWaveform (List.replicate 11 (0:ℚ)) 1).length = 1 * 10 :=
  (truncateWaveform_cap (List.replicate 11 (0:ℚ)) 1 (by simp)).1

/-! ### Preset tier derivation (`create_voice_preset`, `server.py:164-177`) -/

/-- The tiered acoustic prompt Bark expects: semantic / coarse / fine
(`server.py:173-177`).  An EnCodec frame grid is a list of codebook rows,
each row a list of discrete tokens. -/
structure VoicePreset where
  semantic_prompt : List ℤ
  coarse_prompt : List (List ℤ)
  fine_prompt : List (List ℤ)
deriving DecidableEq

/-- Tier derivation `fine_prompt = codes.squeeze(0); coarse_prompt = fine_prompt[:2, :];
semantic_prompt = fine_prompt[0, :]` (`server.py:168-177`).  `fine_prompt[0, :]`
presumes at least one codebook row; `headD []` models it totally. -/
def derivePreset (codes : List (List ℤ)) : VoicePreset :=
  { fine_prompt := codes
    coarse_prompt := codes.take 2
    semantic_prompt := codes.headD [] }

/-- C6: from a K×N frame grid (K ≥ 2, all rows of length N), the derived
preset has fine = the full grid, coarse = exactly the first 2 rows (2×N) and
semantic = exactly the first row (length N), with the same N in all tiers. -/
theorem derivePreset_tiers (codes : List (List ℤ)) (N : ℕ)
    (hK : 2 ≤ codes.length) (hN : ∀ r ∈ codes, r.length = N) :
    (derivePreset codes).fine_prompt = codes ∧
    (derivePreset codes).coarse_prompt.length = 2 ∧
    (∃ r0 r1 rest, codes = r0 :: r1 :: rest ∧
      (derivePreset codes).coarse_prompt = [r0, r1] ∧
      (derivePreset codes).semantic_prompt = r0) ∧
    (∀ r ∈ (derivePreset codes).fine_prompt, r.length = N) ∧
    (∀ r ∈ (derivePreset codes).coarse_prompt, r.length = N) ∧
    (derivePreset codes).semantic_prompt.length = N := by
  match codes, hK with
  | r0 :: r1 :: rest, _ =>
    refine ⟨rfl, rfl, ⟨r0, r1, rest, rfl, rfl, rfl⟩, hN, ?_, ?_⟩
    · intro r hr
      have h : r = r0 ∨ r = r1 := by simpa [derivePreset] using hr
      rcases h with h | h
      · rw [h]; exact hN r0 (by simp)
      · rw [h]; exact hN r1 (by simp)
    · exact hN r0 (by simp)

/-- C6 witness: the tier shapes evaluated on a concrete 3×2 grid. -/
theorem derivePreset_tiers_witness :
    (derivePreset [[1,2],[3,4],[(5:ℤ),6]]).coarse_prompt.length = 2 ∧
    (derivePreset [[1,2],[3,4],[(5:ℤ),6]]).semantic_prompt.length = 2 :=
  ⟨(derivePreset_tiers [[1,2],[3,4],[(5:ℤ),6]] 2 (by decide) (by decide)).2.1,
   (derivePreset_tiers [[1,2],[3,4],[(5:ℤ),6]] 2 (by decide)
     (by decide)).2.2.2.2.2⟩

/-! ### Server state

The process-global mutable state of `server.py` (`server.py:52-56`) together
with the relevant filesystem contents under `VOICES_DIR`, made explicit.
Profile directories and the files inside them are keyed by their sanitized
directory name; `""` stands for `VOICES_DIR` itself (pathlib drops empty path
segments, so `get_voice_dir` of a name that sanitizes to nothing is the voices
root, which always exists). -/

structure ServerState where
  /-- sanitized names of existing profile directories under `VOICES_DIR` -/
  dirs : List String
  /-- sanitized directory names containing a reference audio file (wav/mp3) -/
  refAudio : List String
  /-- directory name → content of its `voice_preset.npz`, newest first -/
  presetFiles : List (String × VoicePreset)
  /-- directory names containing a `meta.json` -/
  metaFiles : List String
  /-- in-memory `voice_presets` cache, keyed by the RAW voice name -/
  presetCache : List (String × VoicePreset)
  /-- the global `active_voice` (`server.py:56`), the raw name as given by the client -/
  activeVoice : Option String
deriving DecidableEq

/-- First stored value for a key, modelling a dict / the newest file content. -/
def lookupPair (l : List (String × VoicePreset)) (k : String) :
    Option VoicePreset :=
  (l.find? (fun p => p.1 = k)).map Prod.snd

/-- Existence check `get_voice_dir(name).exists()`: the sanitized directory exists, or the
name sanitizes to the empty string (then `get_voice_dir` is `VOICES_DIR`
itself, which is created at startup, `server.py:37`). -/
def voiceDirExists (dirs : List String) (name : String) : Bool :=
  sanitize name = "" || dirs.contains (sanitize name)

inductive UseVoiceResult where
  | ok (active : String)
  | notFound
deriving DecidableEq

/-- Endpoint `POST /use` (`use_voice`, `server.py:236-244`): 404 if the voice directory
does not exist, otherwise set `active_voice` to the raw requested name. -/
def useVoice (st : ServerState) (voice : String) :
    UseVoiceResult × ServerState :=
  if voiceDirExists st.dirs voice then
    (.ok voice, { st with activeVoice := some voice })
  else (.notFound, st)

/-- C7: setting a voice whose profile directory does not exist fails with
NotFound and leaves the whole server state (in particular the active profile)
unchanged; setting a voice whose directory exists succeeds and the active
profile becomes exactly the requested name. -/
theorem useVoice_spec (st : ServerState) (voice : String) :
    (voiceDirExists st.dirs voice = false →
      useVoice st voice = (.notFound, st)) ∧
    (voiceDirExists st.dirs voice = true →
      useVoice st voice = (.ok voice, { st with activeVoice := some voice })) := by
  constructor
  · intro h
    rw [useVoice, h]
    rfl
  · intro h
    rw [useVoice, h]
    rfl

/-- A concrete server state used by the witnesses below. -/
def witnessState : ServerState :=
  { dirs := ["bob"], refAudio := [], presetFiles := [], metaFiles := [],
    presetCache := [], activeVoice := some "ann" }

/-- C7 witness: `/use` evaluated at a missing and at an existing profile of a
concrete state. -/
theorem useVoice_spec_witness :
    useVoice witnessState "carol" = (.notFound, witnessState) ∧
    useVoice witnessState "bob" =
      (.ok "bob", { witnessState with activeVoice := some "bob" }) :=
  ⟨(useVoice_spec witnessState "carol").1 (by decide),
   (useVoice_spec witnessState "bob").2 (by decide)⟩

/-! ### Preset lookup (`get_voice_preset`, `server.py:191-214`) -/

/-- Lookup `get_voice_preset(voice_name)` (`server.py:191-214`): in-memory cache by
raw name, then the on-disk `voice_preset.npz` of the sanitized directory, then
lazy derivation from reference audio.  `deriveResult` is the outcome of the
external codec run in `create_voice_preset` (`none` = it raised); on success
that function saves the npz and fills the cache (`server.py:179-186`). -/
def getVoicePreset (st : ServerState) (deriveResult : Option VoicePreset)
    (voiceName : String) : Option VoicePreset × ServerState :=
  match lookupPair st.presetCache voiceName with
  | some p => (some p, st)
  | none =>
    match lookupPair st.presetFiles (sanitize voiceName) with
    | some p =>
      (some p, { st with presetCache := (voiceName, p) :: st.presetCache })
    | none =>
      if st.refAudio.contains (sanitize voiceName) then
        match deriveResult with
        | some p =>
          (some p,
           { st with
               presetFiles := (sanitize voiceName, p) :: st.presetFiles
               presetCache := (voiceName, p) :: st.presetCache })
        | none => (none, st)
      else (none, st)

/-! ### Synthesis voice resolution (`tts`, `server.py:247-279`) -/

/-- Resolution `voice_name = voice or active_voice` (`server.py:254`): Python `or` takes
the right operand when the left is `None` or the empty string. -/
def resolveVoiceName (voice active : Option String) : Option String :=
  match voice with
  | some v => if v = "" then active else some v
  | none => active

/-- What conditions the generative engine in `tts`: a built-in Bark preset
tag, a cloned preset, or nothing (default voice). -/
inductive PromptSource where
  | builtin (tag : String)
  | cloned (p : VoicePreset)
  | dflt
deriving DecidableEq

/-- The built-in tag test `voice_name.startswith("v2/")` (`server.py:266`), as a check on the
character data of the name. -/
def startsWithV2 (v : String) : Bool :=
  "v2/".data.isPrefixOf v.data

/-- The prompt-selection logic of `tts` (`server.py:254-279`):
`if voice_name and voice_name.startswith("v2/")` → built-in, bypassing the
profile store; `elif voice_name` (truthy) → preset lookup, falling back to the
default voice when the lookup returns nothing; else default voice. -/
def ttsPrompt (st : ServerState) (deriveResult : Option VoicePreset)
    (voice : Option String) : PromptSource × ServerState :=
  match resolveVoiceName voice st.activeVoice with
  | none => (.dflt, st)
  | some v =>
    if v ≠ "" ∧ startsWithV2 v = true then (.builtin v, st)
    else if v ≠ "" then
      match getVoicePreset st deriveResult v with
      | (some p, st') => (.cloned p, st')
      | (none, st') => (.dflt, st')
    else (.dflt, st)

theorem startsWithV2_ne_empty (v : String) (h : startsWithV2 v = true) :
    v ≠ "" := by
  intro heq
  subst heq
  exact absurd h (by decide)

/-- C1: voice resolution priority.  An explicit name with the reserved
built-in prefix "v2/" is passed straight to the engine whatever the profile
state is (no lookup, no state change); otherwise the effective voice name is
the explicit name if a nonempty one is given, else the process-wide active
profile, else none, in which case synthesis uses the default voice. -/
theorem tts_resolution_priority (st : ServerState)
    (deriveResult : Option VoicePreset) (voice active : Option String) :
    (∀ v, voice = some v → startsWithV2 v = true →
      ttsPrompt st deriveResult voice = (.builtin v, st)) ∧
    (∀ v, voice = some v → v ≠ "" →
      resolveVoiceName voice active = some v) ∧
    (voice = none → resolveVoiceName voice active = active) ∧
    (voice = none → st.activeVoice = none →
      ttsPrompt st deriveResult voice = (.dflt, st)) := by
  refine ⟨?_, ?_, ?_, ?_⟩
  · intro v hv hsw
    subst hv
    have hne : v ≠ "" := startsWithV2_ne_empty v hsw
    rw [ttsPrompt]
    rw [show resolveVoiceName (some v) st.activeVoice = some v from by
      rw [resolveVoiceName]; exact if_neg hne]
    exact if_pos ⟨hne, hsw⟩
  · intro v hv hne
    subst hv
    rw [resolveVoiceName]
    exact if_neg hne
  · intro hv
    subst hv
    rfl
  · intro hv ha
    subst hv
    rw [ttsPrompt, resolveVoiceName, ha]

/-- C1 witness: resolution evaluated at concrete requests exercising each
priority level. -/
theorem tts_resolution_priority_witness :
    ttsPrompt witnessState none (some "v2/fr_speaker_0") =
      (.builtin "v2/fr_speaker_0", witnessState) ∧
    resolveVoiceName (some "alice") (some "ann") = some "alice" ∧
    resolveVoiceName none (some "ann") = some "ann" ∧
    ttsPrompt { witnessState with activeVoice := none } none none =
      (.dflt, { witnessState with activeVoice := none }) :=
  ⟨(tts_resolution_priority witnessState none (some "v2/fr_speaker_0")
      (some "ann")).1 "v2/fr_speaker_0" rfl (by decide),
   (tts_resolution_priority witnessState none (some "alice")
      (some "ann")).2.1 "alice" rfl (by decide),
   (tts_resolution_priority witnessState none none (some "ann")).2.2.1 rfl,
   (tts_resolution_priority { witnessState with activeVoice := none } none
      none none).2.2.2 rfl rfl⟩

/-! ### Model loader (`load_model`, `server.py:104-134`) -/

/-- The globals `bark_model` / `bark_processor` (`server.py:53-54`), with the
engine and processor handle types abstract (they are external black boxes). -/
structure ModelState (α β : Type) where
  barkModel : Option α
  barkProcessor : Option β

/-- Loader `load_model()` (`server.py:104-134`): if `bark_model` is already set,
return the loaded handles immediately; otherwise load both sub-models (the
outcome of the successful external load is the `fresh` parameter), store them
in the globals and return them. -/
def loadModel {α β : Type} (st : ModelState α β) (fresh : α × β) :
    ModelState α β × (Option α × Option β) :=
  match st.barkModel with
  | some m => (st, (some m, st.barkProcessor))
  | none =>
    ({ barkModel := some fresh.1, barkProcessor := some fresh.2 },
     (some fresh.1, some fresh.2))

/-- C9: once the engine is loaded, every later call to the loader is a no-op:
the state is unchanged, the already-loaded engine and processor handles are
returned, and the result does not depend on any fresh-load outcome (no further
loading happens). -/
theorem loadModel_noop {α β : Type} (st : ModelState α β)
    (fresh fresh' : α × β) (m : α) (h : st.barkModel = some m) :
    loadModel st fresh = (st, (some m, st.barkProcessor)) ∧
    loadModel st fresh = loadModel st fresh' := by
  constructor
  · rw [loadModel, h]
  · rw [loadModel, loadModel, h]

/-- C9 witness: the loader evaluated on a concrete already-loaded state. -/
theorem loadModel_noop_witness :
    loadModel (ModelState.mk (some 1) (some 2) : ModelState ℕ ℕ) (3, 4) =
      (ModelState.mk (some 1) (some 2), (some 1, some 2)) ∧
    loadModel (ModelState.mk (some 1) (some 2) : ModelState ℕ ℕ) (3, 4) =
      loadModel (ModelState.mk (some 1) (some 2)) (5, 6) :=
  ⟨(loadModel_noop (ModelState.mk (some 1) (some 2)) (3, 4) (5, 6) 1 rfl).1,
   (loadModel_noop (ModelState.mk (some 1) (some 2)) (3, 4) (5, 6) 1 rfl).2⟩

/-! ### Voice cloning (`clone_voice`, `server.py:321-382`) -/

/-- The fields of the `/clone` JSON response the claims are about
(`server.py:375-382`). -/
structure CloneResponse where
  name : String
  hasPreset : Bool
  active : Bool
deriving DecidableEq

/-- Endpoint `POST /clone` (`clone_voice`, `server.py:321-382`), with the external
outcomes as parameters: `extIsWav` — the uploaded file's suffix is `.wav`;
`ffmpegOk` — the ffmpeg conversion succeeded; `deriveResult` — outcome of the
codec run in `create_voice_preset` (`none` = it raised, swallowed at
`server.py:356-358`).  Steps, in source order: mkdir + save the upload under
the sanitized directory; ffmpeg (failure is fatal, HTTP 500, only when the
upload was not already a wav); try preset derivation (non-fatal); write
`meta.json`; set `active_voice` to the RAW name; respond with the raw name and
`has_preset = (voice_dir / "voice_preset.npz").exists()`. -/
def cloneVoice (st : ServerState) (name : String) (extIsWav ffmpegOk : Bool)
    (deriveResult : Option VoicePreset) : Option CloneResponse × ServerState :=
  let d := sanitize name
  let st1 := { st with dirs := d :: st.dirs, refAudio := d :: st.refAudio }
  if ffmpegOk = false ∧ extIsWav = false then (none, st1)
  else
    let st2 :=
      match deriveResult with
      | some p =>
        { st1 with
            presetFiles := (d, p) :: st1.presetFiles
            presetCache := (name, p) :: st1.presetCache }
      | none => st1
    let st3 := { st2 with metaFiles := d :: st2.metaFiles,
                          activeVoice := some name }
    (some { name := name
            hasPreset := (lookupPair st3.presetFiles d).isSome
            active := true }, st3)

/-- A preset stored by an earlier, successful clone. -/
def stalePreset : VoicePreset :=
  { semantic_prompt := [0], coarse_prompt := [[0]], fine_prompt := [[0]] }

/-- A server state in which profile "alice" already has an on-disk preset. -/
def staleState : ServerState :=
  { dirs := ["alice"], refAudio := ["alice"],
    presetFiles := [("alice", stalePreset)], metaFiles := ["alice"],
    presetCache := [], activeVoice := none }

/-- C8 counterexample: re-cloning "alice" with a failing preset derivation
reports `has_preset = true`, not `false` — the flag reflects the on-disk
preset file, and the file from the earlier clone persists. -/
theorem clone_failed_derivation_cex :
    (cloneVoice staleState "alice" true true none).1 =
      some { name := "alice", hasPreset := true, active := true } := by
  decide

/-- C8 (amended): a preset-derivation failure is non-fatal for profile
creation — the reference audio and metadata are still saved and a response is
returned, with the preset-presence flag reporting on-disk preset-file
existence (so `false` whenever no preset file from an earlier clone of the
same name persists) — and non-fatal at synthesis time: when the cache and the
on-disk preset are absent and derivation fails (or no reference exists),
synthesis proceeds with the default voice instead of failing. -/
theorem clone_failed_derivation_nonfatal (st : ServerState) (name : String)
    (extIsWav ffmpegOk : Bool) (hff : ffmpegOk = true ∨ extIsWav = true)
    (hNoPrior : lookupPair st.presetFiles (sanitize name) = none) :
    (cloneVoice st name extIsWav ffmpegOk none).1 =
      some { name := name, hasPreset := false, active := true } ∧
    (cloneVoice st name extIsWav ffmpegOk none).2.refAudio.contains
      (sanitize name) = true ∧
    (cloneVoice st name extIsWav ffmpegOk none).2.metaFiles.contains
      (sanitize name) = true ∧
    (∀ v : String, v ≠ "" → startsWithV2 v = false →
      lookupPair st.presetCache v = none →
      lookupPair st.presetFiles (sanitize v) = none →
      ttsPrompt st none (some v) = (.dflt, st)) := by
  have hcond : ¬(ffmpegOk = false ∧ extIsWav = false) := by
    rcases hff with h | h <;> simp [h]
  refine ⟨?_, ?_, ?_, ?_⟩
  · rw [cloneVoice]
    simp only [if_neg hcond]
    simp [hNoPrior]
  · rw [cloneVoice]
    simp only [if_neg hcond]
    simp
  · rw [cloneVoice]
    simp only [if_neg hcond]
    simp
  · intro v hv hsw hcache hdisk
    have hres : resolveVoiceName (some v) st.activeVoice = some v := by
      rw [resolveVoiceName]; exact if_neg hv
    by_cases hra : st.refAudio.contains (sanitize v) = true
    · simp [ttsPrompt, hres, getVoicePreset, hcache, hdisk, hv, hsw, hra]
    · simp [ttsPrompt, hres, getVoicePreset, hcache, hdisk, hv, hsw, hra]

/-- C8 witness: the amended claim evaluated at a concrete fresh clone of
"carol" with a failing derivation, and a concrete synthesis fallback. -/
theorem clone_failed_derivation_nonfatal_witness :
    (cloneVoice witnessState "carol" true true none).1 =
      some { name := "carol", hasPreset := false, active := true } ∧
    ttsPrompt witnessState none (some "carol") = (.dflt, witnessState) :=
  ⟨(clone_failed_derivation_nonfatal witnessState "carol" true true
      (Or.inl rfl) (by decide)).1,
   (clone_failed_derivation_nonfatal witnessState "carol" true true
      (Or.inl rfl) (by decide)).2.2.2 "carol" (by decide) (by decide)
      (by decide) (by decide)⟩

/-- C10: when the requested clone name differs from its sanitized form, the
profile's files are written under the sanitized directory name while the
response and the process-wide active profile carry the raw requested name, so
the stored (listed) profile name and the active-profile name differ. -/
theorem clone_name_mismatch (st : ServerState) (name : String)
    (extIsWav ffmpegOk : Bool) (deriveResult : Option VoicePreset)
    (hff : ffmpegOk = true ∨ extIsWav = true)
    (hname : sanitize name ≠ name) :
    ((cloneVoice st name extIsWav ffmpegOk deriveResult).1.map
      CloneResponse.name) = some name ∧
    (cloneVoice st name extIsWav ffmpegOk deriveResult).2.activeVoice =
      some name ∧
    (cloneVoice st name extIsWav ffmpegOk deriveResult).2.dirs.contains
      (sanitize name) = true ∧
    (cloneVoice st name extIsWav ffmpegOk deriveResult).2.refAudio.contains
      (sanitize name) = true ∧
    (cloneVoice st name extIsWav ffmpegOk deriveResult).2.metaFiles.contains
      (sanitize name) = true ∧
    (cloneVoice st name extIsWav ffmpegOk deriveResult).2.activeVoice ≠
      some (sanitize name) := by
  have hcond : ¬(ffmpegOk = false ∧ extIsWav = false) := by
    rcases hff with h | h <;> simp [h]
  cases deriveResult with
  | some p =>
    refine ⟨?_, ?_, ?_, ?_, ?_, ?_⟩
    · rw [cloneVoice]; simp only [if_neg hcond]; simp
    · rw [cloneVoice]; simp only [if_neg hcond]
    · rw [cloneVoice]; simp only [if_neg hcond]; simp
    · rw [cloneVoice]; simp only [if_neg hcond]; simp
    · rw [cloneVoice]; simp only [if_neg hcond]; simp
    · rw [cloneVoice]; simp only [if_neg hcond]; simp [Ne.symm hname]
  | none =>
    refine ⟨?_, ?_, ?_, ?_, ?_, ?_⟩
    · rw [cloneVoice]; simp only [if_neg hcond]; simp
    · rw [cloneVoice]; simp only [if_neg hcond]
    · rw [cloneVoice]; simp only [if_neg hcond]; simp
    · rw [cloneVoice]; simp only [if_neg hcond]; simp
    · rw [cloneVoice]; simp only [if_neg hcond]; simp
    · rw [cloneVoice]; simp only [if_neg hcond]; simp [Ne.symm hname]

/-- C10 witness: cloning under the raw name "a b" (sanitized: "ab") and under
"!!!" (sanitized: "", the voices root) at a concrete state. -/
theorem clone_name_mismatch_witness :
    ((cloneVoice witnessState "a b" true true none).1.map
      CloneResponse.name) = some "a b" ∧
    (cloneVoice witnessState "a b" true true none).2.activeVoice ≠
      some (sanitize "a b") ∧
    (cloneVoice witnessState "!!!" true true none).2.refAudio.contains
      (sanitize "!!!") = true :=
  ⟨(clone_name_mismatch witnessState "a b" true true none
      (Or.inl rfl) (by decide)).1,
   (clone_name_mismatch witnessState "a b" true true none
      (Or.inl rfl) (by decide)).2.2.2.2.2,
   (clone_name_mismatch witnessState "!!!" true true none
      (Or.inl rfl) (by decide)).2.2.2.1⟩

end Bastilon
